import Mathlib

/-!
Verification of the SurveillanceAI detection-event pipeline and of the client
code that consumes it.  Client-side JavaScript (constants, notification
context, dashboard statistics, detection styling) is embedded directly from
the repository sources; the server-side pipeline components, whose source is
not part of the repository, are modelled from the specification and marked as
such in their doc comments.
-/

namespace SurveillanceAI

/-- From the repository's frontend constants module (src/unnamed/part_005):
`DETECTION_TYPES` enumerates the five detection-type string values used by
the client. -/
def DETECTION_TYPES : List String :=
  ["face_match", "suspicious_behavior", "emotion_alert", "loitering", "intrusion"]

/-- From src/unnamed/part_005: `RISK_LEVELS` enumerates the four risk-level
string values. -/
def RISK_LEVELS : List String :=
  ["low", "medium", "high", "critical"]

/-- The default colour class returned by `getTypeColor` for a type string not
in its colour table (src/unnamed/part_003, the `|| 'bg-gray-100 ...'`
fallback). -/
def defaultTypeColor : String := "bg-gray-100 text-gray-800"

/-- From `DetectionList` (src/unnamed/part_003): `getTypeColor` looks the
detection-type string up in a literal object mapping the five detection types
to colour classes and falls back to the grey default.  The JavaScript object
lookup with `||` default is embedded as a chain of equality tests in the
object's key order. -/
def getTypeColor (t : String) : String :=
  if t = "face_match" then "bg-red-100 text-red-800"
  else if t = "suspicious_behavior" then "bg-orange-100 text-orange-800"
  else if t = "emotion_alert" then "bg-yellow-100 text-yellow-800"
  else if t = "loitering" then "bg-blue-100 text-blue-800"
  else if t = "intrusion" then "bg-purple-100 text-purple-800"
  else defaultTypeColor

/-- Modelled from the spec: the `detection_type` enum of a DetectionEvent
(§3 data model; the backend source that declares it is not in the
repository): face_match, suspicious_behavior, emotion_alert, loitering,
intrusion. -/
inductive DetectionType
  | face_match
  | suspicious_behavior
  | emotion_alert
  | loitering
  | intrusion
deriving DecidableEq, Repr

/-- All values of the detection-type enum. -/
def DetectionType.all : List DetectionType :=
  [.face_match, .suspicious_behavior, .emotion_alert, .loitering, .intrusion]

/-- The wire string of each detection-type enum value (the strings appearing
in the API documentation and in the client's `DETECTION_TYPES`). -/
def DetectionType.str : DetectionType → String
  | .face_match => "face_match"
  | .suspicious_behavior => "suspicious_behavior"
  | .emotion_alert => "emotion_alert"
  | .loitering => "loitering"
  | .intrusion => "intrusion"

/-- Modelled from the spec: risk levels of a WatchlistEntry (§3), matching
the client's `RISK_LEVELS` (src/unnamed/part_005). -/
inductive RiskLevel
  | low
  | medium
  | high
  | critical
deriving DecidableEq, Repr

/-- Modelled from the spec: `verification_state` of a DetectionEvent (§4.5):
starts `unverified`, transitions to `chain_anchored` when the ledger
confirms. -/
inductive VerificationState
  | unverified
  | chain_anchored
deriving DecidableEq, Repr

/- ------------------------------------------------------------------ -/
/- Notification context (AppProvider, src/unnamed/part_000)            -/
/- ------------------------------------------------------------------ -/

/-- A notification held in the `AppProvider` state (src/unnamed/part_000).
`id` is assigned by `addNotification` from `Date.now()`; the remaining
fields of the spread `{...notification, id}` are opaque to the id logic and
collapsed into `payload`. -/
structure Notification where
  id : Nat
  payload : String
deriving DecidableEq, Repr

/-- From `addNotification` (src/unnamed/part_000): the new notification gets
`id = Date.now()` (`now` here) and is appended to the list
(`prev => [...prev, { ...notification, id }]`). -/
def addNotification (now : Nat) (payload : String) (prev : List Notification) :
    List Notification :=
  prev ++ [⟨now, payload⟩]

/-- From `removeNotification` (src/unnamed/part_000):
`prev => prev.filter(n => n.id !== id)`. -/
def removeNotification (id : Nat) (prev : List Notification) : List Notification :=
  prev.filter (fun n => n.id ≠ id)

/- ------------------------------------------------------------------ -/
/- Dashboard verified-count card (DashboardPage, src/unnamed/part_007) -/
/- ------------------------------------------------------------------ -/

/-- A JavaScript numeric value as produced by the dashboard arithmetic:
either an actual number or `NaN`. -/
inductive JSNum
  | num (n : Int)
  | nan
deriving DecidableEq, Repr

/-- The dashboard stats object (src/unnamed/part_007): only the two fields
the verified-count card reads; each may be missing (`undefined`). -/
structure DashboardStats where
  total_detections : Option Int
  unverified_detections : Option Int
deriving DecidableEq, Repr

/-- JavaScript subtraction of two possibly-undefined values: if either
operand is `undefined` the result is `NaN`, otherwise the numeric
difference. -/
def jsSub : Option Int → Option Int → JSNum
  | some a, some b => .num (a - b)
  | _, _ => .nan

/-- JavaScript truthiness of a numeric value: `0` and `NaN` are falsy. -/
def jsTruthy : JSNum → Bool
  | .num n => n ≠ 0
  | .nan => false

/-- From `DashboardPage` (src/unnamed/part_007, the Verified Detections
card): `stats?.total_detections - stats?.unverified_detections || 0`.
Optional chaining on an absent `stats` yields `undefined`, subtraction with
`undefined` yields `NaN`, and `|| 0` replaces any falsy value (`NaN` or `0`)
by `0`. -/
def verifiedCardValue (stats : Option DashboardStats) : JSNum :=
  let d := jsSub (stats.bind (·.total_detections)) (stats.bind (·.unverified_detections))
  if jsTruthy d then d else .num 0

/- ------------------------------------------------------------------ -/
/- Pipeline data model (modelled from the spec)                        -/
/- ------------------------------------------------------------------ -/

/-- Modelled from the spec: a raw detection supplied by a camera/AI producer
(§4.1, §6); the backend source is not in the repository.  `descriptor` is the
opaque embedding/media reference handed to the similarity search. -/
structure RawDetection where
  camera_id : Nat
  detection_type : DetectionType
  confidence : ℚ
  timestamp : Nat
  descriptor : Nat
deriving DecidableEq, Repr

/-- Modelled from the spec: a detection-event identity, derived from
`(camera_id, timestamp, per-camera sequence counter)` (§3, §4.1).  The
`evt_<YYYYMMDD>_<HHMMSS>_<seq>` rendering is an injective formatting of these
three components, so identity is carried by the triple itself. -/
structure EventId where
  camera_id : Nat
  timestamp : Nat
  seq : Nat
deriving DecidableEq, Repr

/-- Modelled from the spec: the immutable DetectionEvent record (§3); the
backend source is not in the repository.  `payload` is omitted (opaque,
never inspected by the pipeline). -/
structure DetectionEvent where
  event_id : EventId
  camera_id : Nat
  detection_type : DetectionType
  confidence : ℚ
  timestamp : Nat
  matched_person_id : Option Nat
  verification_state : VerificationState
  ledger_tx_id : Option Nat
deriving DecidableEq, Repr

/-- Modelled from the spec: the reasons of a `ValidationError` (§4.1). -/
inductive ValidationReason
  | stale
  | future
  | unknown_camera
  | out_of_range
deriving DecidableEq, Repr

/-- Modelled from the spec: `ValidationError{reason: ...}` (§4.1, §7). -/
structure ValidationError where
  reason : ValidationReason
deriving DecidableEq, Repr

/-- Modelled from the spec: the EventNormalizer's configurable clock-skew and
staleness windows, in seconds (§4.1; defaults 5 s and 60 s). -/
structure NormalizerConfig where
  skew : Nat
  staleness : Nat
deriving DecidableEq, Repr

/-- The spec's default windows: 5 s skew, 60 s staleness (§4.1). -/
def defaultNormalizerConfig : NormalizerConfig := ⟨5, 60⟩

/-- Modelled from the spec: the per-camera id-assignment state of the
EventNormalizer (§4.1, §5, §9): for each camera a sequence counter, and the
record of ids already assigned, so that re-delivery of the same raw
detection (same camera_id and timestamp) deterministically yields the same
id.  `assigned` maps `(camera_id, timestamp)` to the sequence number that
was issued for it. -/
structure NormalizerState where
  assigned : List ((Nat × Nat) × Nat)
deriving DecidableEq, Repr

/-- The per-camera sequence counter: the next sequence number for a camera is
the number of ids already issued for it. -/
def NormalizerState.nextSeq (st : NormalizerState) (camera : Nat) : Nat :=
  (st.assigned.filter (fun p => p.1.1 = camera)).length

/-- Modelled from the spec: deterministic id assignment (§4.1).  A
`(camera_id, timestamp)` pair that was already assigned an id gets the same
id again (re-delivery); a fresh pair consumes the camera's next sequence
number. -/
def assignEventId (st : NormalizerState) (camera ts : Nat) :
    EventId × NormalizerState :=
  match st.assigned.lookup (camera, ts) with
  | some s => (⟨camera, ts, s⟩, st)
  | none =>
      let s := st.nextSeq camera
      (⟨camera, ts, s⟩, ⟨((camera, ts), s) :: st.assigned⟩)

/-- Modelled from the spec: `EventNormalizer.normalize(raw)` (§4.1).
Validations, in the spec's listing order: `camera_id` known (against the
external registry, modelled as the list of known-active camera ids),
`confidence` in `[0,1]`, `timestamp` not more than `skew` ahead of the wall
clock `now`, and not older than `staleness`.  On success it assigns the
deterministic event id and builds the event with `verification_state =
unverified` and no `ledger_tx_id`. -/
def normalize (cfg : NormalizerConfig) (registry : List Nat) (now : Nat)
    (st : NormalizerState) (raw : RawDetection) :
    Except ValidationError (DetectionEvent × NormalizerState) :=
  if raw.camera_id ∉ registry then .error ⟨.unknown_camera⟩
  else if ¬ (0 ≤ raw.confidence ∧ raw.confidence ≤ 1) then .error ⟨.out_of_range⟩
  else if now + cfg.skew < raw.timestamp then .error ⟨.future⟩
  else if raw.timestamp + cfg.staleness < now then .error ⟨.stale⟩
  else
    let p := assignEventId st raw.camera_id raw.timestamp
    .ok (⟨p.1, raw.camera_id, raw.detection_type, raw.confidence, raw.timestamp,
          none, .unverified, none⟩, p.2)

/- ------------------------------------------------------------------ -/
/- WatchlistMatcher (modelled from the spec, §4.2)                     -/
/- ------------------------------------------------------------------ -/

/-- Modelled from the spec: a ranked candidate returned by the external
similarity search (§6): person id, similarity score, configured risk
level. -/
structure Candidate where
  person_id : Nat
  score : ℚ
  risk_level : RiskLevel
deriving DecidableEq, Repr

/-- Modelled from the spec: the acceptance threshold per risk level (§4.2):
critical 0.75, high 0.80, medium 0.85, low 0.90. -/
def threshold : RiskLevel → ℚ
  | .critical => 75/100
  | .high => 80/100
  | .medium => 85/100
  | .low => 90/100

/-- The ordering of risk levels used by the tie-break (higher is riskier). -/
def riskRank : RiskLevel → Nat
  | .low => 0
  | .medium => 1
  | .high => 2
  | .critical => 3

/-- Modelled from the spec: choosing between two candidates (§4.2): when the
scores are within 0.01 of each other the higher configured risk level wins
the tie-break, otherwise the higher score wins. -/
def betterCandidate (a b : Candidate) : Candidate :=
  if |a.score - b.score| ≤ 1/100 then
    if riskRank a.risk_level < riskRank b.risk_level then b else a
  else if a.score < b.score then b else a

/-- The best candidate of a result list, by `betterCandidate`; `none` on an
empty list. -/
def bestCandidate : List Candidate → Option Candidate
  | [] => none
  | c :: cs => some (cs.foldl betterCandidate c)

/-- Modelled from the spec: `MatchResult{person_id, score}` (§4.2). -/
structure MatchResult where
  person_id : Nat
  score : ℚ
deriving DecidableEq, Repr

/-- Modelled from the spec: the WatchlistMatcher's policy (§4.2): accept the
best candidate only if its score reaches the threshold of its risk level;
otherwise `none` (the common, non-error case). -/
def matchCandidates (cands : List Candidate) : Option MatchResult :=
  match bestCandidate cands with
  | none => none
  | some c =>
      if threshold c.risk_level ≤ c.score then some ⟨c.person_id, c.score⟩
      else none

/- ------------------------------------------------------------------ -/
/- EvidenceLedger outbox (modelled from the spec, §4.3)                -/
/- ------------------------------------------------------------------ -/

/-- Modelled from the spec: OutboxRecord states (§3, §4.3). -/
inductive OutboxState
  | pending
  | submitting
  | confirmed
  | failed
  | abandoned
deriving DecidableEq, Repr

/-- States in which an OutboxRecord is finished forever: `confirmed`
(terminal success) and `abandoned` (terminal failure). -/
def OutboxState.isTerminal : OutboxState → Bool
  | .confirmed => true
  | .abandoned => true
  | _ => false

/-- Modelled from the spec: the OutboxRecord (§3). -/
structure OutboxRecord where
  event_id : EventId
  attempt_count : Nat
  next_retry_at : Nat
  state : OutboxState
deriving DecidableEq, Repr

/-- Modelled from the spec: `EvidenceLedger.submit(event)` (§4.3): enqueues
an OutboxRecord in `pending`; re-submitting an `event_id` while a record
exists is a no-op returning the existing record's state, never creating a
duplicate.  Returns the record's state and the updated outbox. -/
def submit (eid : EventId) (outbox : List OutboxRecord) :
    OutboxState × List OutboxRecord :=
  match outbox.find? (fun r => r.event_id = eid) with
  | some r => (r.state, outbox)
  | none => (.pending, outbox ++ [⟨eid, 0, 0, .pending⟩])

/-- Modelled from the spec: outcome of one external ledger write (§6):
success with a transaction id, a transient failure, or a terminal
rejection. -/
inductive LedgerWriteResult
  | ok (tx_id : Nat)
  | transient
  | rejected
deriving DecidableEq, Repr

/-- The spec's retry budget: max 10 attempts (§4.3). -/
def maxAttempts : Nat := 10

/-- Modelled from the spec: exponential backoff with jitter, base 2 s,
cap 5 min (§4.3): the delay before retry number `attempts + 1`.  The jitter
is an arbitrary function of the attempt number; the cap is applied after
adding it. -/
def backoffDelay (jitter : Nat → Nat) (attempts : Nat) : Nat :=
  min (2 ^ attempts + jitter attempts) 300

/-- The observable history of one OutboxRecord's ledger dispatching: the
record itself, the `ledger_tx_id` stored on the DetectionEvent, the event's
`verification_state`, the status updates re-published on the bus, and the
number of alerts emitted. -/
structure RecordRun where
  record : OutboxRecord
  tx : Option Nat
  vstate : VerificationState
  updates : List VerificationState
  alerts : Nat
deriving DecidableEq, Repr

/-- The state of a freshly submitted record: `pending`, no attempts, no
transaction id, event `unverified`, nothing published, no alerts. -/
def initRun (eid : EventId) : RecordRun :=
  ⟨⟨eid, 0, 0, .pending⟩, none, .unverified, [], 0⟩

/-- Modelled from the spec: one dispatcher attempt on a non-terminal record
(§4.3, §4.5).  The record passes through `submitting` and the external write
returns `o`.  On success: `confirmed`, the transaction id is stored on the
event (the only permitted mutation of `ledger_tx_id`), the event becomes
`chain_anchored` and one `chain_anchored` status update is published.  On a
transient failure: `attempt_count` is incremented and, if the budget is not
yet exhausted, the record returns to `failed` with `next_retry_at` scheduled
by the exponential backoff; once the budget is exhausted it moves to
`abandoned` and an alert is emitted.  On rejection: `abandoned` immediately,
with an alert, never retried.  `now` abstracts the dispatch clock. -/
def applyOutcome (now : Nat) (jitter : Nat → Nat) (o : LedgerWriteResult)
    (r : RecordRun) : RecordRun :=
  let count := r.record.attempt_count + 1
  match o with
  | .ok t =>
      { r with
        record := { r.record with state := .confirmed, attempt_count := count },
        tx := some t, vstate := .chain_anchored,
        updates := r.updates ++ [.chain_anchored] }
  | .transient =>
      if maxAttempts ≤ count then
        { r with
          record := { r.record with state := .abandoned, attempt_count := count },
          alerts := r.alerts + 1 }
      else
        let rec1 : OutboxRecord :=
          { r.record with state := .failed, attempt_count := count,
                          next_retry_at := now + backoffDelay jitter count }
        { r with record := rec1 }
  | .rejected =>
      { r with
        record := { r.record with state := .abandoned, attempt_count := count },
        alerts := r.alerts + 1 }

/-- Modelled from the spec: the background dispatcher's effect on one record
over a sequence of external write outcomes (§4.3).  A terminal record is
never touched again. -/
def runOutbox (now : Nat) (jitter : Nat → Nat) :
    List LedgerWriteResult → RecordRun → RecordRun
  | [], r => r
  | o :: os, r =>
      if r.record.state.isTerminal then r
      else runOutbox now jitter os (applyOutcome now jitter o r)

/-- Modelled from the spec: the dispatcher processes each event's record
independently (§4.3, §5: single record owner, no cross-event coupling); a
batch of records, each with its own outcome sequence, is dispatched
record-wise. -/
def runMany (now : Nat) (jitter : Nat → Nat)
    (batch : List (EventId × List LedgerWriteResult)) : List RecordRun :=
  batch.map (fun p => runOutbox now jitter p.2 (initRun p.1))

/- ------------------------------------------------------------------ -/
/- PipelineCoordinator (modelled from the spec, §4.5)                  -/
/- ------------------------------------------------------------------ -/

/-- The pipeline state an `ingest` call touches: the normalizer's id state,
the external durable store (keyed by `event_id`), the EvidenceLedger outbox,
and the EventBus publication log in publication order. -/
structure PipelineState where
  norm : NormalizerState
  store : List DetectionEvent
  outbox : List OutboxRecord
  published : List DetectionEvent
deriving DecidableEq, Repr

/-- The empty initial pipeline state. -/
def initPipeline : PipelineState := ⟨⟨[]⟩, [], [], []⟩

/-- Modelled from the spec: persisting to the external durable store, keyed
by `event_id` (§3, §4.1: the id is "the idempotency key used everywhere
downstream"): an event whose id is already stored is not stored twice. -/
def persist (e : DetectionEvent) (store : List DetectionEvent) :
    List DetectionEvent :=
  if store.any (fun d => d.event_id = e.event_id) then store
  else store ++ [e]

/-- Modelled from the spec: the coordinator attaches the WatchlistMatcher's
result to the normalized event (§4.5): `matched_person_id` is set when a
match is accepted, and the event is otherwise unchanged. -/
def attachMatch (e0 : DetectionEvent) (cands : List Candidate) :
    DetectionEvent :=
  match matchCandidates cands with
  | some m => { e0 with matched_person_id := some m.person_id }
  | none => e0

/-- Modelled from the spec: `PipelineCoordinator.ingest(raw)` (§4.5):
normalize, then match against the watchlist (the external similarity search
is `search`, applied to the raw descriptor) and attach the result, persist
to the durable store, hand off to `EvidenceLedger.submit`, then publish on
the EventBus — before ledger confirmation.  A validation failure changes
nothing. -/
def ingest (cfg : NormalizerConfig) (registry : List Nat) (now : Nat)
    (search : Nat → List Candidate) (st : PipelineState) (raw : RawDetection) :
    Except ValidationError (DetectionEvent × PipelineState) :=
  match normalize cfg registry now st.norm raw with
  | .error err => .error err
  | .ok (e0, norm1) =>
      let e := attachMatch e0 (search raw.descriptor)
      .ok (e, ⟨norm1, persist e st.store, (submit e.event_id st.outbox).2,
               st.published ++ [e]⟩)

/-- The pipeline state after one `ingest` call: a rejected raw detection
leaves the state unchanged (§4.1: rejection has no side effect). -/
def ingestStep (cfg : NormalizerConfig) (registry : List Nat) (now : Nat)
    (search : Nat → List Candidate) (st : PipelineState) (raw : RawDetection) :
    PipelineState :=
  match ingest cfg registry now search st raw with
  | .ok p => p.2
  | .error _ => st

/-- The coordinator processing a sequence of raw detections in arrival order
(§4.5: per-camera strict arrival order; the global arrival sequence
interleaves cameras, and each camera's events appear in it in that camera's
arrival order). -/
def ingestAll (cfg : NormalizerConfig) (registry : List Nat) (now : Nat)
    (search : Nat → List Candidate) (st : PipelineState)
    (raws : List RawDetection) : PipelineState :=
  raws.foldl (ingestStep cfg registry now search) st

/- ------------------------------------------------------------------ -/
/- Theorems                                                            -/
/- ------------------------------------------------------------------ -/

/-- C8: every DetectionEvent carries a `detection_type` drawn from exactly
the five enumerated values face_match, suspicious_behavior, emotion_alert,
loitering, intrusion; these are exactly the values of the client's
`DETECTION_TYPES` constant, and exactly the type strings to which the
client's `getTypeColor` assigns a non-default colour. -/
theorem detection_type_closure :
    DetectionType.all.map DetectionType.str = DETECTION_TYPES
    ∧ (∀ e : DetectionEvent, e.detection_type ∈ DetectionType.all)
    ∧ ∀ s : String, (getTypeColor s ≠ defaultTypeColor ↔ s ∈ DETECTION_TYPES) := by
  refine ⟨rfl, fun e => ?_, fun s => ?_⟩
  · cases h : e.detection_type <;> simp [DetectionType.all, h]
  · unfold getTypeColor DETECTION_TYPES defaultTypeColor
    split_ifs with h1 h2 h3 h4 h5 <;> simp_all

/-- C9: `removeNotification id` removes from the list every notification
whose id equals `id`, leaves all notifications with other ids unchanged and
in their original order, and—because `addNotification` takes its id from the
clock—two notifications added with the same `Date.now()` value share one id
and are both removed by a single removal of that id. -/
theorem removeNotification_removes_all_with_id :
    ∀ (id now : Nat) (p q : String) (l : List Notification),
      (∀ n ∈ removeNotification id l, n.id ≠ id)
      ∧ (removeNotification id l).Sublist l
      ∧ (∀ n ∈ l, n.id ≠ id → n ∈ removeNotification id l)
      ∧ (∀ n ∈ addNotification now q (addNotification now p l), n ∈ l ∨ n.id = now)
      ∧ removeNotification now (addNotification now q (addNotification now p l))
          = removeNotification now l := by
  intro id now p q l
  refine ⟨?_, ?_, ?_, ?_, ?_⟩
  · intro n hn
    have h := List.mem_filter.mp hn
    simpa using h.2
  · exact List.filter_sublist l
  · intro n hn hne
    exact List.mem_filter.mpr ⟨hn, by simpa using hne⟩
  · intro n hn
    simp only [addNotification, List.mem_append, List.mem_singleton] at hn
    rcases hn with (h | h) | h
    · exact Or.inl h
    · subst h; exact Or.inr rfl
    · subst h; exact Or.inr rfl
  · simp [removeNotification, addNotification, List.filter_append]

/-- C9 witness: a concrete run: two notifications added at the same
millisecond both disappear with one removal, and an unrelated notification
survives in place. -/
theorem removeNotification_removes_all_with_id_witness :
    (∀ n ∈ removeNotification 5 [⟨5, "a"⟩, ⟨3, "b"⟩], n.id ≠ 5)
    ∧ removeNotification 5 (addNotification 5 "y" (addNotification 5 "x" [⟨3, "b"⟩]))
        = removeNotification 5 [⟨3, "b"⟩] :=
  ⟨(removeNotification_removes_all_with_id 5 5 "x" "y" [⟨5, "a"⟩, ⟨3, "b"⟩]).1,
   (removeNotification_removes_all_with_id 5 5 "x" "y" [⟨3, "b"⟩]).2.2.2.2⟩

/-- C10: the Verified Detections card value equals
`total_detections - unverified_detections` whenever the stats object and
both fields are present and the difference is nonzero; it is `0` whenever
the stats object is absent, either field is missing, or the difference is
`0`; and it is never `NaN`. -/
theorem verifiedCard_value :
    ∀ stats : Option DashboardStats,
      verifiedCardValue stats ≠ JSNum.nan
      ∧ (∀ t u : Int, stats = some ⟨some t, some u⟩ → t - u ≠ 0 →
           verifiedCardValue stats = .num (t - u))
      ∧ (∀ t u : Int, stats = some ⟨some t, some u⟩ → t - u = 0 →
           verifiedCardValue stats = .num 0)
      ∧ (stats = none → verifiedCardValue stats = .num 0)
      ∧ (∀ s : DashboardStats, stats = some s →
           s.total_detections = none ∨ s.unverified_detections = none →
           verifiedCardValue stats = .num 0) := by
  intro stats
  refine ⟨?_, ?_, ?_, ?_, ?_⟩
  · rcases stats with _ | ⟨_ | t, _ | u⟩ <;>
      simp [verifiedCardValue, jsSub, jsTruthy] <;> split_ifs <;> simp_all

  · rintro t u rfl hne
    simp [verifiedCardValue, jsSub, jsTruthy, hne]
  · rintro t u rfl hz
    simp [verifiedCardValue, jsSub, jsTruthy, hz]
  · rintro rfl
    simp [verifiedCardValue, jsSub, jsTruthy]
  · rintro s rfl hmiss
    rcases s with ⟨_ | t, _ | u⟩ <;>
      simp_all [verifiedCardValue, jsSub, jsTruthy]

/-- C10 witness: concrete card values: 10 total with 3 unverified shows 7;
missing stats shows 0; a missing field shows 0; zero difference shows 0. -/
theorem verifiedCard_value_witness :
    verifiedCardValue (some ⟨some 10, some 3⟩) = .num 7
    ∧ verifiedCardValue none = .num 0
    ∧ verifiedCardValue (some ⟨none, some 3⟩) = .num 0
    ∧ verifiedCardValue (some ⟨some 4, some 4⟩) = .num 0 :=
  ⟨(verifiedCard_value (some ⟨some 10, some 3⟩)).2.1 10 3 rfl (by decide),
   (verifiedCard_value none).2.2.2.1 rfl,
   (verifiedCard_value (some ⟨none, some 3⟩)).2.2.2.2 _ rfl (Or.inl rfl),
   (verifiedCard_value (some ⟨some 4, some 4⟩)).2.2.1 4 4 rfl (by decide)⟩

/-- C2: the WatchlistMatcher accepts the best similarity-search candidate
exactly when its score reaches its risk level's threshold — critical 0.75,
high 0.80, medium 0.85, low 0.90 — so a candidate exactly at the threshold
is accepted and one below it is rejected. -/
theorem watchlist_threshold_boundary :
    (threshold .critical = 75/100 ∧ threshold .high = 80/100
      ∧ threshold .medium = 85/100 ∧ threshold .low = 90/100)
    ∧ ∀ (cands : List Candidate) (c : Candidate),
        bestCandidate cands = some c →
        (matchCandidates cands = some ⟨c.person_id, c.score⟩
            ↔ threshold c.risk_level ≤ c.score)
        ∧ (c.score < threshold c.risk_level → matchCandidates cands = none) := by
  refine ⟨⟨rfl, rfl, rfl, rfl⟩, ?_⟩
  intro cands c hbest
  have hm : matchCandidates cands =
      if threshold c.risk_level ≤ c.score then some ⟨c.person_id, c.score⟩
      else none := by
    unfold matchCandidates
    rw [hbest]
  rw [hm]
  refine ⟨⟨fun h => ?_, fun h => by rw [if_pos h]⟩, fun hlt => ?_⟩
  · by_contra hlt
    rw [if_neg hlt] at h
    exact Option.noConfusion h
  · rw [if_neg (not_le.mpr hlt)]

/-- C2 witness: a high-risk candidate scoring exactly 0.80 is accepted with
its person id and score; one scoring 0.79 is rejected. -/
theorem watchlist_threshold_boundary_witness :
    bestCandidate [⟨7, 80/100, .high⟩] = some ⟨7, 80/100, .high⟩
    ∧ matchCandidates [⟨7, 80/100, .high⟩] = some ⟨7, 80/100⟩
    ∧ matchCandidates [⟨7, 79/100, .high⟩] = none :=
  ⟨rfl,
   ((watchlist_threshold_boundary.2 [⟨7, 80/100, .high⟩] ⟨7, 80/100, .high⟩
        rfl).1).mpr (by norm_num [threshold]),
   (watchlist_threshold_boundary.2 [⟨7, 79/100, .high⟩] ⟨7, 79/100, .high⟩
        rfl).2 (by norm_num [threshold])⟩

/-- Any successful `normalize` copies the raw camera id, type, confidence
and timestamp into the event, leaves it unmatched, `unverified`, with no
ledger transaction id, and gives it the id of `assignEventId`. -/
lemma normalize_ok_shape {cfg : NormalizerConfig} {registry : List Nat}
    {now : Nat} {st : NormalizerState} {raw : RawDetection}
    {e : DetectionEvent} {st' : NormalizerState}
    (h : normalize cfg registry now st raw = .ok (e, st')) :
    e = ⟨(assignEventId st raw.camera_id raw.timestamp).1, raw.camera_id,
          raw.detection_type, raw.confidence, raw.timestamp, none,
          .unverified, none⟩
    ∧ st' = (assignEventId st raw.camera_id raw.timestamp).2 := by
  unfold normalize at h
  split_ifs at h
  simp only [Except.ok.injEq, Prod.mk.injEq] at h
  exact ⟨h.1.symm, h.2.symm⟩

/-- C5: a raw detection from a known camera, with in-range confidence, whose
timestamp is older than the staleness window is rejected by
`ingest`/`normalize` with `ValidationError{reason: stale}`, and the whole
pipeline state — normalizer ids, durable store, outbox, bus — is left
unchanged. -/
theorem stale_rejection :
    ∀ (cfg : NormalizerConfig) (registry : List Nat) (now : Nat)
      (search : Nat → List Candidate) (st : PipelineState) (raw : RawDetection),
      raw.camera_id ∈ registry →
      0 ≤ raw.confidence → raw.confidence ≤ 1 →
      raw.timestamp + cfg.staleness < now →
      ingest cfg registry now search st raw = .error ⟨.stale⟩
      ∧ ingestStep cfg registry now search st raw = st := by
  intro cfg registry now search st raw hcam h0 h1 hstale
  have hnorm : normalize cfg registry now st.norm raw = .error ⟨.stale⟩ := by
    unfold normalize
    rw [if_neg (by simp [hcam]), if_neg (by push_neg; exact ⟨h0, h1⟩),
        if_neg (by omega), if_pos hstale]
  exact ⟨by simp [ingest, hnorm], by simp [ingestStep, ingest, hnorm]⟩

/-- C5 witness: with the default 60 s window, a detection 120 s in the past
(timestamp 880 at wall clock 1000) from known camera 1 with confidence 0.9
is rejected as stale and the initial pipeline state is untouched. -/
theorem stale_rejection_witness :
    (880 : Nat) + defaultNormalizerConfig.staleness < 1000
    ∧ ingest defaultNormalizerConfig [1] 1000 (fun _ => [])
        initPipeline ⟨1, .face_match, 9/10, 880, 0⟩ = .error ⟨.stale⟩
    ∧ ingestStep defaultNormalizerConfig [1] 1000 (fun _ => [])
        initPipeline ⟨1, .face_match, 9/10, 880, 0⟩ = initPipeline := by
  have h := stale_rejection defaultNormalizerConfig [1] 1000 (fun _ => [])
    initPipeline ⟨1, .face_match, 9/10, 880, 0⟩
    (by simp) (by norm_num) (by norm_num) (by norm_num [defaultNormalizerConfig])
  exact ⟨by norm_num [defaultNormalizerConfig], h.1, h.2⟩

/-- Re-running `assignEventId` on the state it produced, for the same
camera and timestamp, yields the same id and the same state. -/
lemma assignEventId_idem (st : NormalizerState) (c ts : Nat) :
    assignEventId (assignEventId st c ts).2 c ts = assignEventId st c ts := by
  unfold assignEventId
  cases hl : st.assigned.lookup (c, ts) with
  | some s => simp [hl]
  | none => simp [hl, List.lookup]

/-- Normalizing the same raw input again, from the state a successful
`normalize` produced, yields the same event and the same state. -/
lemma normalize_idem {cfg : NormalizerConfig} {registry : List Nat}
    {now : Nat} {st : NormalizerState} {raw : RawDetection}
    {e : DetectionEvent} {st' : NormalizerState}
    (h : normalize cfg registry now st raw = .ok (e, st')) :
    normalize cfg registry now st' raw = .ok (e, st') := by
  unfold normalize at h ⊢
  split_ifs at h ⊢
  all_goals simp only [Except.ok.injEq, Prod.mk.injEq] at h
  obtain ⟨he, hst⟩ := h
  subst he hst
  simp only [assignEventId_idem]

/-- After `persist e s`, an event with `e`'s id is in the store. -/
lemma persist_any (e : DetectionEvent) (s : List DetectionEvent) :
    ((persist e s).any (fun d => d.event_id = e.event_id)) = true := by
  unfold persist
  split_ifs with h
  · simpa using h
  · simp [List.any_append]

/-- Persisting an event whose id is already stored changes nothing. -/
lemma persist_of_any {e : DetectionEvent} {s : List DetectionEvent}
    (h : s.any (fun d => d.event_id = e.event_id) = true) :
    persist e s = s := by
  unfold persist
  simp [h]

/-- `persist` adds at most one event. -/
lemma persist_length (e : DetectionEvent) (s : List DetectionEvent) :
    (persist e s).length ≤ s.length + 1 := by
  unfold persist
  split_ifs <;> simp

/-- After `submit eid ob`, the outbox holds a record for `eid`. -/
lemma submit_snd_find (eid : EventId) (ob : List OutboxRecord) :
    ((submit eid ob).2.find? (fun r => r.event_id = eid)).isSome = true := by
  unfold submit
  cases hf : ob.find? (fun r => r.event_id = eid) with
  | some r => simp [hf]
  | none => simp [hf, List.find?_append, List.find?]

/-- Submitting an id that already has an OutboxRecord is a no-op that
returns the existing record's state. -/
lemma submit_of_found {eid : EventId} {ob : List OutboxRecord}
    {r : OutboxRecord} (h : ob.find? (fun x => x.event_id = eid) = some r) :
    submit eid ob = (r.state, ob) := by
  unfold submit
  rw [h]

/-- Re-submitting the same id leaves the outbox unchanged. -/
lemma submit_snd_idem (eid : EventId) (ob : List OutboxRecord) :
    (submit eid (submit eid ob).2).2 = (submit eid ob).2 := by
  obtain ⟨r, hr⟩ := Option.isSome_iff_exists.mp (submit_snd_find eid ob)
  rw [submit_of_found hr]

/-- `submit` adds at most one record. -/
lemma submit_snd_length (eid : EventId) (ob : List OutboxRecord) :
    (submit eid ob).2.length ≤ ob.length + 1 := by
  unfold submit
  cases hf : ob.find? (fun r => r.event_id = eid) <;> simp [hf]

/-- A successful `ingest` is exactly: a successful `normalize`, the match
attached, the event persisted, submitted and published. -/
lemma ingest_ok_inv {cfg : NormalizerConfig} {registry : List Nat}
    {now : Nat} {search : Nat → List Candidate} {st : PipelineState}
    {raw : RawDetection} {e : DetectionEvent} {st1 : PipelineState}
    (h : ingest cfg registry now search st raw = .ok (e, st1)) :
    ∃ e0 norm1, normalize cfg registry now st.norm raw = .ok (e0, norm1)
      ∧ e = attachMatch e0 (search raw.descriptor)
      ∧ st1 = ⟨norm1, persist e st.store, (submit e.event_id st.outbox).2,
               st.published ++ [e]⟩ := by
  unfold ingest at h
  cases hn : normalize cfg registry now st.norm raw with
  | error err => rw [hn] at h; exact absurd h (by simp)
  | ok p =>
      obtain ⟨e0, norm1⟩ := p
      rw [hn] at h
      simp only [Except.ok.injEq, Prod.mk.injEq] at h
      obtain ⟨he, hst⟩ := h
      subst he hst
      exact ⟨e0, norm1, rfl, rfl, rfl⟩

/-- A successful `normalize` determines the result of `ingest`. -/
lemma ingest_of_normalize {cfg : NormalizerConfig} {registry : List Nat}
    {now : Nat} {st : PipelineState} {raw : RawDetection}
    {e0 : DetectionEvent} {norm1 : NormalizerState}
    (search : Nat → List Candidate)
    (hn : normalize cfg registry now st.norm raw = .ok (e0, norm1)) :
    ingest cfg registry now search st raw =
      .ok (attachMatch e0 (search raw.descriptor),
           ⟨norm1,
            persist (attachMatch e0 (search raw.descriptor)) st.store,
            (submit (attachMatch e0 (search raw.descriptor)).event_id
              st.outbox).2,
            st.published ++ [attachMatch e0 (search raw.descriptor)]⟩) := by
  unfold ingest
  rw [hn]

/-- C1: ingest is idempotent: a second `ingest` of the same raw detection,
from the state the first one produced, returns the very same DetectionEvent
(the deterministic event id makes both deliveries equal) and leaves the
durable store and the ledger outbox unchanged — so the pair of calls yields
exactly one stored DetectionEvent and at most one ledger submission. -/
theorem ingest_idempotent :
    ∀ (cfg : NormalizerConfig) (registry : List Nat) (now : Nat)
      (search : Nat → List Candidate) (st : PipelineState)
      (raw : RawDetection) (e : DetectionEvent) (st1 : PipelineState),
      ingest cfg registry now search st raw = .ok (e, st1) →
      (∃ st2, ingest cfg registry now search st1 raw = .ok (e, st2)
         ∧ st2.store = st1.store ∧ st2.outbox = st1.outbox)
      ∧ st1.store.length ≤ st.store.length + 1
      ∧ st1.outbox.length ≤ st.outbox.length + 1 := by
  intro cfg registry now search st raw e st1 h
  obtain ⟨e0, norm1, hn, he, hst⟩ := ingest_ok_inv h
  have hn2 : normalize cfg registry now st1.norm raw = .ok (e0, norm1) := by
    rw [hst]
    exact normalize_idem hn
  have h2 := ingest_of_normalize search hn2
  rw [← he] at h2
  refine ⟨⟨_, h2, ?_, ?_⟩, ?_, ?_⟩
  · show persist e st1.store = st1.store
    rw [hst]
    exact persist_of_any (persist_any e st.store)
  · show (submit e.event_id st1.outbox).2 = st1.outbox
    rw [hst]
    exact submit_snd_idem e.event_id st.outbox
  · rw [hst]
    exact persist_length e st.store
  · rw [hst]
    exact submit_snd_length e.event_id st.outbox

/-- A concrete raw detection used to witness idempotency. -/
def sampleRaw : RawDetection := ⟨1, .face_match, mkRat 1 2, 90, 0⟩

/-- The DetectionEvent `ingest` builds from `sampleRaw` at wall clock 100. -/
def sampleEvent : DetectionEvent :=
  ⟨⟨1, 90, 0⟩, 1, .face_match, mkRat 1 2, 90, none, .unverified, none⟩

/-- The pipeline state after ingesting `sampleRaw` once from the initial
state. -/
def sampleState1 : PipelineState :=
  ⟨⟨[((1, 90), 0)]⟩, [sampleEvent], [⟨⟨1, 90, 0⟩, 0, 0, .pending⟩],
   [sampleEvent]⟩

/-- C1 witness: ingesting `sampleRaw` once from the empty pipeline succeeds
concretely, and the second delivery returns the same event without touching
the store or the outbox. -/
theorem ingest_idempotent_witness :
    ingest defaultNormalizerConfig [1] 100 (fun _ => []) initPipeline
        sampleRaw = .ok (sampleEvent, sampleState1)
    ∧ ∃ st2, ingest defaultNormalizerConfig [1] 100 (fun _ => [])
          sampleState1 sampleRaw = .ok (sampleEvent, st2)
        ∧ st2.store = sampleState1.store
        ∧ st2.outbox = sampleState1.outbox := by
  have h1 : ingest defaultNormalizerConfig [1] 100 (fun _ => []) initPipeline
      sampleRaw = .ok (sampleEvent, sampleState1) := by rfl
  exact ⟨h1, (ingest_idempotent defaultNormalizerConfig [1] 100 (fun _ => [])
    initPipeline sampleRaw sampleEvent sampleState1 h1).1⟩

/-- One unfolding step of the dispatcher. -/
lemma runOutbox_cons (now : Nat) (jitter : Nat → Nat) (o : LedgerWriteResult)
    (os : List LedgerWriteResult) (r : RecordRun) :
    runOutbox now jitter (o :: os) r =
      if r.record.state.isTerminal then r
      else runOutbox now jitter os (applyOutcome now jitter o r) := rfl

/-- A terminal record is never touched by the dispatcher again. -/
lemma runOutbox_terminal {now : Nat} {jitter : Nat → Nat}
    {os : List LedgerWriteResult} {r : RecordRun}
    (h : r.record.state.isTerminal = true) :
    runOutbox now jitter os r = r := by
  cases os with
  | nil => rfl
  | cons o os => simp [runOutbox_cons, h]

/-- Dispatching `os ++ rest` is dispatching `os`, then `rest`. -/
lemma runOutbox_append (now : Nat) (jitter : Nat → Nat)
    (os rest : List LedgerWriteResult) (r : RecordRun) :
    runOutbox now jitter (os ++ rest) r =
      runOutbox now jitter rest (runOutbox now jitter os r) := by
  induction os generalizing r with
  | nil => rfl
  | cons o os ih =>
      by_cases h : r.record.state.isTerminal
      · simp [runOutbox_cons, h, runOutbox_terminal h]
      · simp [runOutbox_cons, h, ih]

/-- Dispatcher invariant: the stored transaction id is present exactly on a
confirmed record. -/
def TxInv (r : RecordRun) : Prop :=
  r.tx.isSome = true ↔ r.record.state = .confirmed

/-- A fresh record satisfies the invariant. -/
lemma txinv_init (eid : EventId) : TxInv (initRun eid) := by
  simp [TxInv, initRun]

/-- One dispatcher attempt on a non-terminal record preserves the
invariant. -/
lemma txinv_apply {now : Nat} {jitter : Nat → Nat} {o : LedgerWriteResult}
    {r : RecordRun} (hterm : r.record.state.isTerminal = false)
    (h : TxInv r) : TxInv (applyOutcome now jitter o r) := by
  have hnc : r.record.state ≠ .confirmed := by
    intro hc
    rw [hc] at hterm
    exact Bool.noConfusion hterm
  have htx : r.tx.isSome = false := by
    cases hx : r.tx.isSome with
    | false => rfl
    | true => exact absurd (h.mp hx) hnc
  cases o with
  | ok t => simp [applyOutcome, TxInv]
  | transient =>
      by_cases hm : maxAttempts ≤ r.record.attempt_count + 1 <;>
        simp [applyOutcome, hm, TxInv, htx]
  | rejected => simp [applyOutcome, TxInv, htx]

/-- The dispatcher preserves the invariant along any outcome sequence. -/
lemma txinv_run (now : Nat) (jitter : Nat → Nat) :
    ∀ (os : List LedgerWriteResult) (r : RecordRun),
      TxInv r → TxInv (runOutbox now jitter os r) := by
  intro os
  induction os with
  | nil => intro r h; exact h
  | cons o os ih =>
      intro r h
      by_cases ht : r.record.state.isTerminal
      · simpa [runOutbox_cons, ht] using h
      · rw [runOutbox_cons, if_neg (by simp [ht])]
        exact ih _ (txinv_apply (by simpa using ht) h)

/-- C3: `ledger_tx_id` write-once: starting from a fresh OutboxRecord, the
stored transaction id is present exactly when the record is `confirmed`
(confirmation is the only transition that writes it), and once it is set the
record is frozen — any further dispatching leaves the whole run, and hence
the stored id, unchanged, so an event reaching `confirmed` has its id set
exactly once and never altered afterwards. -/
theorem ledger_tx_write_once :
    ∀ (now : Nat) (jitter : Nat → Nat) (eid : EventId)
      (os rest : List LedgerWriteResult) (t : Nat),
      ((runOutbox now jitter os (initRun eid)).tx.isSome = true
        ↔ (runOutbox now jitter os (initRun eid)).record.state = .confirmed)
      ∧ ((runOutbox now jitter os (initRun eid)).tx = some t →
          runOutbox now jitter (os ++ rest) (initRun eid)
            = runOutbox now jitter os (initRun eid)
          ∧ (runOutbox now jitter (os ++ rest) (initRun eid)).tx = some t
          ∧ (runOutbox now jitter (os ++ rest) (initRun eid)).record.state
              = .confirmed) := by
  intro now jitter eid os rest t
  have hinv := txinv_run now jitter os (initRun eid) (txinv_init eid)
  refine ⟨hinv, fun hsome => ?_⟩
  have hconf : (runOutbox now jitter os (initRun eid)).record.state
      = .confirmed := hinv.mp (by rw [hsome]; rfl)
  have hfrozen : runOutbox now jitter (os ++ rest) (initRun eid)
      = runOutbox now jitter os (initRun eid) := by
    rw [runOutbox_append]
    exact runOutbox_terminal (by rw [hconf]; rfl)
  exact ⟨hfrozen, by rw [hfrozen, hsome], by rw [hfrozen, hconf]⟩

/-- C3 witness: a concrete run: one successful write stores id 42 and marks
the record confirmed; a further (spurious) transient outcome changes
nothing. -/
theorem ledger_tx_write_once_witness :
    (runOutbox 0 (fun _ => 0) [.ok 42] (initRun ⟨1, 2, 3⟩)).tx = some 42
    ∧ runOutbox 0 (fun _ => 0) ([.ok 42] ++ [.transient]) (initRun ⟨1, 2, 3⟩)
        = runOutbox 0 (fun _ => 0) [.ok 42] (initRun ⟨1, 2, 3⟩)
    ∧ (runOutbox 0 (fun _ => 0) ([.ok 42] ++ [.transient])
        (initRun ⟨1, 2, 3⟩)).record.state = .confirmed :=
  ⟨rfl,
   ((ledger_tx_write_once 0 (fun _ => 0) ⟨1, 2, 3⟩ [.ok 42] [.transient]
      42).2 rfl).1,
   ((ledger_tx_write_once 0 (fun _ => 0) ⟨1, 2, 3⟩ [.ok 42] [.transient]
      42).2 rfl).2.2⟩

/-- C6: three transient ledger failures followed by a success leave the
OutboxRecord `confirmed` with `attempt_count = 4`, exactly one
`chain_anchored` status update published, the returned transaction id
stored, and the event `chain_anchored` — and each intermediate failure had
moved the record to `failed` with the attempt count incremented and
`next_retry_at` scheduled by the exponential backoff (base 2 s, cap 5 min,
arbitrary jitter); whatever outcomes follow the success are ignored. -/
theorem retry_then_confirm :
    ∀ (now : Nat) (jitter : Nat → Nat) (eid : EventId) (t : Nat)
      (rest : List LedgerWriteResult),
      (runOutbox now jitter ([.transient, .transient, .transient, .ok t] ++ rest)
          (initRun eid)).record.state = .confirmed
      ∧ (runOutbox now jitter ([.transient, .transient, .transient, .ok t] ++ rest)
          (initRun eid)).record.attempt_count = 4
      ∧ (runOutbox now jitter ([.transient, .transient, .transient, .ok t] ++ rest)
          (initRun eid)).updates = [.chain_anchored]
      ∧ (runOutbox now jitter ([.transient, .transient, .transient, .ok t] ++ rest)
          (initRun eid)).tx = some t
      ∧ (runOutbox now jitter ([.transient, .transient, .transient, .ok t] ++ rest)
          (initRun eid)).vstate = .chain_anchored
      ∧ runOutbox now jitter [.transient] (initRun eid)
          = ⟨⟨eid, 1, now + min (2 ^ 1 + jitter 1) 300, .failed⟩, none,
             .unverified, [], 0⟩
      ∧ runOutbox now jitter [.transient, .transient] (initRun eid)
          = ⟨⟨eid, 2, now + min (2 ^ 2 + jitter 2) 300, .failed⟩, none,
             .unverified, [], 0⟩
      ∧ runOutbox now jitter [.transient, .transient, .transient] (initRun eid)
          = ⟨⟨eid, 3, now + min (2 ^ 3 + jitter 3) 300, .failed⟩, none,
             .unverified, [], 0⟩ := by
  intro now jitter eid t rest
  have h4 : runOutbox now jitter [.transient, .transient, .transient, .ok t]
      (initRun eid)
      = ⟨⟨eid, 4, now + min (2 ^ 3 + jitter 3) 300, .confirmed⟩, some t,
         .chain_anchored, [.chain_anchored], 0⟩ := by
    simp [runOutbox, runOutbox_cons, applyOutcome, initRun,
      OutboxState.isTerminal, maxAttempts, backoffDelay]
  have habs : runOutbox now jitter
      ([.transient, .transient, .transient, .ok t] ++ rest) (initRun eid)
      = ⟨⟨eid, 4, now + min (2 ^ 3 + jitter 3) 300, .confirmed⟩, some t,
         .chain_anchored, [.chain_anchored], 0⟩ := by
    rw [runOutbox_append, h4]
    exact runOutbox_terminal rfl
  refine ⟨by rw [habs], by rw [habs], by rw [habs], by rw [habs], by rw [habs],
    ?_, ?_, ?_⟩ <;>
    simp [runOutbox, runOutbox_cons, applyOutcome, initRun,
      OutboxState.isTerminal, maxAttempts, backoffDelay]

/-- A run of transient failures below the retry budget leaves the record
`failed`, only bumping the attempt count and retry schedule: the stored
transaction id, the event's verification state, the published updates and
the alert count are untouched. -/
lemma runOutbox_transients (now : Nat) (jitter : Nat → Nat) :
    ∀ (n : Nat) (r : RecordRun),
      r.record.state.isTerminal = false →
      r.record.attempt_count + n < maxAttempts →
      ∃ rec1 : OutboxRecord,
        runOutbox now jitter (List.replicate n .transient) r
            = { r with record := rec1 }
        ∧ rec1.state.isTerminal = false
        ∧ rec1.attempt_count = r.record.attempt_count + n
        ∧ rec1.event_id = r.record.event_id := by
  intro n
  induction n with
  | zero =>
      intro r ht _
      exact ⟨r.record, rfl, ht, rfl, rfl⟩
  | succ n ih =>
      intro r ht hb
      have hcnt : ¬ (maxAttempts ≤ r.record.attempt_count + 1) := by omega
      have happ : applyOutcome now jitter .transient r
          = { r with record := ⟨r.record.event_id, r.record.attempt_count + 1,
                now + backoffDelay jitter (r.record.attempt_count + 1),
                .failed⟩ } := by
        simp [applyOutcome, hcnt]
      obtain ⟨rec1, hrun, hterm1, hcnt1, hid1⟩ :=
        ih { r with record := ⟨r.record.event_id, r.record.attempt_count + 1,
              now + backoffDelay jitter (r.record.attempt_count + 1),
              .failed⟩ } rfl (by simpa using by omega)
      refine ⟨rec1, ?_, hterm1, by simp at hcnt1; omega, by simpa using hid1⟩
      rw [List.replicate_succ, runOutbox_cons, if_neg (by simp [ht]), happ,
        hrun]

/-- C7: a permanently failing ledger write never disappears silently: after
any number of transient failures within the retry budget, a `rejected`
outcome moves the record to terminal `abandoned` immediately — it is never
retried, whatever outcomes would follow — with exactly one alert emitted, no
status update published, no transaction id stored, and the event's
verification state still `unverified`; exhausting the retry budget with
transient failures equally ends in `abandoned` with one alert; and the
dispatcher still confirms other events' records in the same batch. -/
theorem abandoned_reported :
    ∀ (now : Nat) (jitter : Nat → Nat) (eid eid2 : EventId) (t : Nat)
      (n : Nat) (rest : List LedgerWriteResult),
      (n + 1 ≤ maxAttempts →
        (runOutbox now jitter (List.replicate n .transient ++ [.rejected])
            (initRun eid)).record.state = .abandoned
        ∧ (runOutbox now jitter (List.replicate n .transient ++ [.rejected])
            (initRun eid)).record.attempt_count = n + 1
        ∧ (runOutbox now jitter (List.replicate n .transient ++ [.rejected])
            (initRun eid)).alerts = 1
        ∧ (runOutbox now jitter (List.replicate n .transient ++ [.rejected])
            (initRun eid)).vstate = .unverified
        ∧ (runOutbox now jitter (List.replicate n .transient ++ [.rejected])
            (initRun eid)).tx = none
        ∧ (runOutbox now jitter (List.replicate n .transient ++ [.rejected])
            (initRun eid)).updates = []
        ∧ runOutbox now jitter
            ((List.replicate n .transient ++ [.rejected]) ++ rest)
            (initRun eid)
          = runOutbox now jitter (List.replicate n .transient ++ [.rejected])
              (initRun eid))
      ∧ ((runOutbox now jitter (List.replicate maxAttempts .transient)
            (initRun eid)).record.state = .abandoned
        ∧ (runOutbox now jitter (List.replicate maxAttempts .transient)
            (initRun eid)).record.attempt_count = maxAttempts
        ∧ (runOutbox now jitter (List.replicate maxAttempts .transient)
            (initRun eid)).alerts = 1
        ∧ (runOutbox now jitter (List.replicate maxAttempts .transient)
            (initRun eid)).vstate = .unverified
        ∧ (runOutbox now jitter (List.replicate maxAttempts .transient)
            (initRun eid)).tx = none)
      ∧ (runMany now jitter [(eid, [.rejected]), (eid2, [.ok t])]).map
          (fun r => r.record.state) = [.abandoned, .confirmed] := by
  intro now jitter eid eid2 t n rest
  refine ⟨fun hn => ?_, ?_, ?_⟩
  · obtain ⟨rec1, hrun, hterm1, hcnt1, hid1⟩ :=
      runOutbox_transients now jitter n (initRun eid) rfl
        (by simp [initRun]; omega)
    have hcnt1' : rec1.attempt_count = n := by simpa [initRun] using hcnt1
    have hrej : runOutbox now jitter (List.replicate n .transient ++ [.rejected])
        (initRun eid)
        = ⟨⟨rec1.event_id, n + 1, rec1.next_retry_at, .abandoned⟩, none,
           .unverified, [], 1⟩ := by
      rw [runOutbox_append, hrun, runOutbox_cons, if_neg (by simp [hterm1])]
      simp [applyOutcome, initRun, runOutbox, hcnt1']
    refine ⟨by rw [hrej], by rw [hrej], by rw [hrej], by rw [hrej],
      by rw [hrej], by rw [hrej], ?_⟩
    rw [runOutbox_append, hrej]
    exact runOutbox_terminal rfl
  · obtain ⟨rec1, hrun, hterm1, hcnt1, hid1⟩ :=
      runOutbox_transients now jitter (maxAttempts - 1) (initRun eid) rfl
        (by simp [initRun, maxAttempts])
    have hcnt1' : rec1.attempt_count = maxAttempts - 1 := by
      simpa [initRun] using hcnt1
    have hsplit : List.replicate maxAttempts LedgerWriteResult.transient
        = List.replicate (maxAttempts - 1) LedgerWriteResult.transient
            ++ [.transient] := by
      rw [← List.replicate_succ']
      norm_num [maxAttempts]
    have hend : runOutbox now jitter (List.replicate maxAttempts .transient)
        (initRun eid)
        = ⟨⟨rec1.event_id, maxAttempts, rec1.next_retry_at, .abandoned⟩, none,
           .unverified, [], 1⟩ := by
      rw [hsplit, runOutbox_append, hrun, runOutbox_cons,
        if_neg (by simp [hterm1])]
      simp [applyOutcome, initRun, runOutbox, hcnt1', maxAttempts]
    exact ⟨by rw [hend], by rw [hend], by rw [hend], by rw [hend],
      by rw [hend]⟩
  · simp [runMany, runOutbox, runOutbox_cons, applyOutcome, initRun,
      OutboxState.isTerminal, maxAttempts]

/-- C7 witness: concretely, two transient failures then a rejection abandon
the record with one alert, the event still `unverified`, and a subsequent
outcome is ignored; a parallel batch still confirms the other record. -/
theorem abandoned_reported_witness :
    2 + 1 ≤ maxAttempts
    ∧ (runOutbox 0 (fun _ => 0) (List.replicate 2 .transient ++ [.rejected])
        (initRun ⟨1, 1, 0⟩)).record.state = .abandoned
    ∧ (runOutbox 0 (fun _ => 0) (List.replicate 2 .transient ++ [.rejected])
        (initRun ⟨1, 1, 0⟩)).alerts = 1
    ∧ (runOutbox 0 (fun _ => 0) (List.replicate 2 .transient ++ [.rejected])
        (initRun ⟨1, 1, 0⟩)).vstate = .unverified
    ∧ runOutbox 0 (fun _ => 0)
        ((List.replicate 2 .transient ++ [.rejected]) ++ [.ok 5])
        (initRun ⟨1, 1, 0⟩)
      = runOutbox 0 (fun _ => 0) (List.replicate 2 .transient ++ [.rejected])
          (initRun ⟨1, 1, 0⟩) := by
  have h := (abandoned_reported 0 (fun _ => 0) ⟨1, 1, 0⟩ ⟨2, 2, 0⟩ 5 2
    [.ok 5]).1 (by decide)
  exact ⟨by decide, h.1, h.2.2.1, h.2.2.2.1, h.2.2.2.2.2.2⟩

/-- Attaching a watchlist match only touches `matched_person_id`. -/
lemma attachMatch_fields (e0 : DetectionEvent) (cands : List Candidate) :
    (attachMatch e0 cands).camera_id = e0.camera_id
    ∧ (attachMatch e0 cands).timestamp = e0.timestamp
    ∧ (attachMatch e0 cands).event_id = e0.event_id := by
  unfold attachMatch
  cases matchCandidates cands <;> simp

/-- The event a successful `ingest` publishes carries the raw detection's
camera id and timestamp. -/
lemma ingest_ok_fields {cfg : NormalizerConfig} {registry : List Nat}
    {now : Nat} {search : Nat → List Candidate} {st : PipelineState}
    {raw : RawDetection} {e : DetectionEvent} {st1 : PipelineState}
    (h : ingest cfg registry now search st raw = .ok (e, st1)) :
    st1.published = st.published ++ [e]
    ∧ e.camera_id = raw.camera_id
    ∧ e.timestamp = raw.timestamp := by
  obtain ⟨e0, norm1, hn, he, hst1⟩ := ingest_ok_inv h
  obtain ⟨he0, -⟩ := normalize_ok_shape hn
  refine ⟨by rw [hst1], ?_, ?_⟩
  · rw [he, (attachMatch_fields e0 (search raw.descriptor)).1, he0]
  · rw [he, (attachMatch_fields e0 (search raw.descriptor)).2.1, he0]

/-- The events the coordinator publishes while processing an arrival
sequence extend the bus log, and, camera by camera, their timestamps are a
subsequence of the arrival timestamps of that camera. -/
lemma ingestAll_published (cfg : NormalizerConfig) (registry : List Nat)
    (now : Nat) (search : Nat → List Candidate) :
    ∀ (raws : List RawDetection) (st : PipelineState) (c : Nat),
      ∃ delta : List DetectionEvent,
        (ingestAll cfg registry now search st raws).published
            = st.published ++ delta
        ∧ ((delta.filter (fun e => e.camera_id = c)).map
              (fun e => e.timestamp)).Sublist
            ((raws.filter (fun r => r.camera_id = c)).map
              (fun r => r.timestamp)) := by
  intro raws
  induction raws with
  | nil =>
      intro st c
      exact ⟨[], by simp [ingestAll], by simp⟩
  | cons raw raws ih =>
      intro st c
      have hall : ingestAll cfg registry now search st (raw :: raws)
          = ingestAll cfg registry now search
              (ingestStep cfg registry now search st raw) raws := rfl
      cases h : ingest cfg registry now search st raw with
      | error err =>
          have hstep : ingestStep cfg registry now search st raw = st := by
            simp [ingestStep, h]
          obtain ⟨delta, hpub, hsub⟩ := ih st c
          refine ⟨delta, by rw [hall, hstep, hpub], ?_⟩
          refine hsub.trans ?_
          rw [List.filter_cons]
          split_ifs with hc
          · simp only [List.map_cons]
            exact List.sublist_cons_self _ _
          · exact List.Sublist.refl _
      | ok p =>
          obtain ⟨e, st1⟩ := p
          have hstep : ingestStep cfg registry now search st raw = st1 := by
            simp [ingestStep, h]
          obtain ⟨hpub1, hcam, hts⟩ := ingest_ok_fields h
          obtain ⟨delta, hpub, hsub⟩ := ih st1 c
          refine ⟨e :: delta, ?_, ?_⟩
          · rw [hall, hstep, hpub, hpub1, List.append_assoc,
              List.singleton_append]
          · rw [List.filter_cons, List.filter_cons]
            by_cases hc : raw.camera_id = c
            · rw [if_pos (by simpa [hcam] using hc),
                if_pos (by simpa using hc)]
              simpa [hts] using hsub.cons₂ raw.timestamp
            · rw [if_neg (by simpa [hcam] using hc),
                if_neg (by simpa using hc)]
              exact hsub

/-- C4: per-camera publication order: if a camera's raw detections arrive
with non-decreasing timestamps (the data model's per-camera monotonic
capture time), then the events any subscriber — any filter `p` — observes
on the bus for that camera are in non-decreasing timestamp order. -/
theorem per_camera_order :
    ∀ (cfg : NormalizerConfig) (registry : List Nat) (now : Nat)
      (search : Nat → List Candidate) (raws : List RawDetection) (c : Nat)
      (p : DetectionEvent → Bool),
      ((raws.filter (fun r => r.camera_id = c)).map
          (fun r => r.timestamp)).Sorted (· ≤ ·) →
      (((((ingestAll cfg registry now search initPipeline raws).published.filter
            p).filter (fun e => e.camera_id = c))).map
          (fun e => e.timestamp)).Sorted (· ≤ ·) := by
  intro cfg registry now search raws c p hsorted
  obtain ⟨delta, hpub, hsub⟩ :=
    ingestAll_published cfg registry now search raws initPipeline c
  rw [hpub]
  have hinit : initPipeline.published = [] := rfl
  rw [hinit, List.nil_append]
  have h1 : ((delta.filter p).filter (fun e => e.camera_id = c)).Sublist
      (delta.filter (fun e => e.camera_id = c)) :=
    (List.filter_sublist delta).filter _
  have h2 := (h1.map (fun e => e.timestamp)).trans hsub
  exact List.Pairwise.sublist h2 hsorted

/-- C4 witness: two arrivals from camera 1 with timestamps 10 then 20 are
observed by a subscriber that accepts everything in non-decreasing
timestamp order. -/
theorem per_camera_order_witness :
    ((([(⟨1, .face_match, 1, 10, 0⟩ : RawDetection),
        ⟨1, .intrusion, 1, 20, 0⟩].filter (fun r => r.camera_id = 1)).map
        (fun r => r.timestamp)).Sorted (· ≤ ·))
    ∧ (((((ingestAll defaultNormalizerConfig [1] 20 (fun _ => [])
          initPipeline
          [⟨1, .face_match, 1, 10, 0⟩, ⟨1, .intrusion, 1, 20, 0⟩]).published.filter
            (fun _ => true)).filter (fun e => e.camera_id = 1))).map
        (fun e => e.timestamp)).Sorted (· ≤ ·) := by
  have hs : ((([(⟨1, .face_match, 1, 10, 0⟩ : RawDetection),
      ⟨1, .intrusion, 1, 20, 0⟩].filter (fun r => r.camera_id = 1)).map
      (fun r => r.timestamp)).Sorted (· ≤ ·)) := by
    simp [List.Sorted]
  exact ⟨hs, per_camera_order defaultNormalizerConfig [1] 20 (fun _ => [])
    [⟨1, .face_match, 1, 10, 0⟩, ⟨1, .intrusion, 1, 20, 0⟩] 1
    (fun _ => true) hs⟩

end SurveillanceAI
